import Mathlib

/-!
Verification of the threshold-based decision/metrics engine of the
credit-risk prediction service.

The definitions below are a shallow embedding of
`src/api/app/services/data_service.py` (class `DataService`),
`src/scripts/classify_risk_BACEN.py` and the recommendation helper of
`src/api/app/services/model_service.py`.  Machine floats are modelled by
exact rationals; `round(x, d)` is modelled by round-half-to-even on
rationals (`pyRound`); pandas boolean-mask selections are modelled by
`List.filter` / `List.countP` over the list of population records.
-/

namespace CreditRisk

/-- Round-half-to-even of a rational to an integer, the idealisation of
the Python built-in `round`. -/
def pyRoundInt (q : ℚ) : ℤ :=
  if q - ⌊q⌋ < 1/2 then ⌊q⌋
  else if 1/2 < q - ⌊q⌋ then ⌊q⌋ + 1
  else if ⌊q⌋ % 2 = 0 then ⌊q⌋ else ⌊q⌋ + 1

/-- The Python call `round(q, d)`: round-half-to-even at `d` decimal places. -/
def pyRound (q : ℚ) (d : ℕ) : ℚ :=
  (pyRoundInt (q * 10 ^ d) : ℚ) / 10 ^ d

/-- One row of the preprocessed population table
(`DataService._preprocess_data`): the normalized score
`score_normalizado`, the binary default flag `inadimplente` and the
monetary exposure `ticket`. -/
structure Record where
  score_normalizado : ℚ
  inadimplente : ℤ
  ticket : ℚ
  deriving Repr, DecidableEq

/-- The dictionary returned by `DataService.get_metrics`. -/
structure Metrics where
  saldoLiquido : ℚ
  taxaAprovacao : ℚ
  taxaInadimplencia : ℚ
  totalClientes : ℕ
  clientesAprovados : ℕ
  clientesRejeitados : ℕ
  receitaTotal : ℚ
  perdasInadimplencia : ℚ
  oportunidadesPerdidas : ℚ
  perdasEvitadas : ℚ
  valorMedio : ℚ
  threshold : ℚ
  deriving Repr, DecidableEq

/-- Sum of the `ticket` column over a selection of rows
(`df.loc[mask, "ticket"].sum()`). -/
def sumTicket (l : List Record) : ℚ :=
  (l.map Record.ticket).sum

/-- Sum of the `inadimplente` column over a selection of rows
(`df.loc[mask, "inadimplente"].sum()`). -/
def sumInad (l : List Record) : ℤ :=
  (l.map Record.inadimplente).sum

/-- `DataService._get_empty_metrics`: the all-zero snapshot returned when
the population table failed to load or is empty.  Note: its `threshold`
field is the constant `0.5`. -/
def _get_empty_metrics : Metrics :=
  { saldoLiquido := 0
    taxaAprovacao := 0
    taxaInadimplencia := 0
    totalClientes := 0
    clientesAprovados := 0
    clientesRejeitados := 0
    receitaTotal := 0
    perdasInadimplencia := 0
    oportunidadesPerdidas := 0
    perdasEvitadas := 0
    valorMedio := 0
    threshold := 0.5 }

/-- `DataService.get_metrics`.  The data state is `none` when the
population table failed to load (`df_preprocessed is None`), otherwise
`some pop`.  Approval mask: `score_normalizado >= threshold`. -/
def get_metrics (threshold : ℚ) (state : Option (List Record)) : Metrics :=
  match state with
  | none => _get_empty_metrics
  | some pop =>
    if pop.length = 0 then _get_empty_metrics
    else
      let total := pop.length
      let approved := pop.filter (fun r => decide (threshold ≤ r.score_normalizado))
      let clientesAprovados := approved.length
      let clientesRejeitados := total - clientesAprovados
      let taxa_aprovacao : ℚ :=
        if 0 < total then (clientesAprovados : ℚ) / (total : ℚ) * 100 else 0
      let taxa_inadimplencia : ℚ :=
        if 0 < clientesAprovados then
          ((sumInad approved : ℤ) : ℚ) / (clientesAprovados : ℚ) * 100
        else 0
      let receita_aprovados : ℚ :=
        if 0 < clientesAprovados then sumTicket approved else 0
      let perdas_inadimplentes : ℚ :=
        sumTicket (pop.filter (fun r =>
          decide (threshold ≤ r.score_normalizado) && decide (r.inadimplente = 1)))
      let saldo_liquido := receita_aprovados - perdas_inadimplentes
      let oportunidades_perdidas : ℚ :=
        sumTicket (pop.filter (fun r =>
          !decide (threshold ≤ r.score_normalizado) && decide (r.inadimplente = 0)))
      let perdas_evitadas : ℚ :=
        sumTicket (pop.filter (fun r =>
          !decide (threshold ≤ r.score_normalizado) && decide (r.inadimplente = 1)))
      { saldoLiquido := saldo_liquido
        taxaAprovacao := pyRound taxa_aprovacao 1
        taxaInadimplencia := pyRound taxa_inadimplencia 1
        totalClientes := total
        clientesAprovados := clientesAprovados
        clientesRejeitados := clientesRejeitados
        receitaTotal := receita_aprovados
        perdasInadimplencia := perdas_inadimplentes
        oportunidadesPerdidas := oportunidades_perdidas
        perdasEvitadas := perdas_evitadas
        valorMedio := sumTicket pop / (total : ℚ)
        threshold := threshold }

/-- The 4-record example population of the spec: normalized scores
`[0.2, 0.5, 0.7, 0.9]`, outcomes `[True, False, False, True]`,
exposures `[100, 200, 300, 400]`. -/
def examplePop : List Record :=
  [⟨0.2, 1, 100⟩, ⟨0.5, 0, 200⟩, ⟨0.7, 0, 300⟩, ⟨0.9, 1, 400⟩]

/-- The dictionary returned by `DataService.get_confusion_matrix` in the
loaded-data branch. -/
structure ConfusionMatrix where
  tp : ℕ
  fp : ℕ
  tn : ℕ
  fn : ℕ
  accuracy : ℚ
  precision : ℚ
  recallRate : ℚ
  f1_score : ℚ
  threshold : ℚ
  deriving Repr, DecidableEq

/-- `DataService.get_confusion_matrix` on a loaded population.
Polarity: rejected (`score_normalizado < threshold`, i.e. not approved)
counts as positive; `tp` = rejected defaulters, `fp` = rejected
non-defaulters, `tn` = approved non-defaulters, `fn` = approved
defaulters. -/
def get_confusion_matrix (threshold : ℚ) (pop : List Record) : ConfusionMatrix :=
  let tp := pop.countP (fun r =>
    !decide (threshold ≤ r.score_normalizado) && decide (r.inadimplente = 1))
  let fp := pop.countP (fun r =>
    !decide (threshold ≤ r.score_normalizado) && decide (r.inadimplente = 0))
  let tn := pop.countP (fun r =>
    decide (threshold ≤ r.score_normalizado) && decide (r.inadimplente = 0))
  let fn := pop.countP (fun r =>
    decide (threshold ≤ r.score_normalizado) && decide (r.inadimplente = 1))
  let total := tp + fp + tn + fn
  let accuracy : ℚ := if 0 < total then ((tp : ℚ) + tn) / (total : ℚ) else 0
  let precision : ℚ := if 0 < tp + fp then (tp : ℚ) / ((tp : ℚ) + fp) else 0
  let recallRate : ℚ := if 0 < tp + fn then (tp : ℚ) / ((tp : ℚ) + fn) else 0
  let f1 : ℚ :=
    if 0 < precision + recallRate then 2 * (precision * recallRate) / (precision + recallRate) else 0
  { tp := tp, fp := fp, tn := tn, fn := fn
    accuracy := pyRound (accuracy * 100) 2
    precision := pyRound (precision * 100) 2
    recallRate := pyRound (recallRate * 100) 2
    f1_score := pyRound (f1 * 100) 2
    threshold := threshold }

/-- The per-threshold `tp` count of the sweep loop inside
`DataService.get_roc_curve_data`: rejected (`score_normalizado <
threshold`, strict) defaulters. -/
def roc_tp (threshold : ℚ) (pop : List Record) : ℕ :=
  pop.countP (fun r =>
    decide (r.score_normalizado < threshold) && decide (r.inadimplente = 1))

/-- The per-threshold `fp` count of the sweep loop inside
`DataService.get_roc_curve_data`: rejected non-defaulters. -/
def roc_fp (threshold : ℚ) (pop : List Record) : ℕ :=
  pop.countP (fun r =>
    decide (r.score_normalizado < threshold) && decide (r.inadimplente = 0))

/-- The rejected set of the ROC sweep: rows with
`score_normalizado < threshold`. -/
def rocRejected (threshold : ℚ) (pop : List Record) : List Record :=
  pop.filter (fun r => decide (r.score_normalizado < threshold))

/-- The 9-point threshold grid `np.linspace(0.1, 0.9, 9)` used by
`get_threshold_sensitivity` and `optimize_threshold`. -/
def linGrid : List ℚ := [0.1, 0.2, 0.3, 0.4, 0.5, 0.6, 0.7, 0.8, 0.9]

/-- The objective value selected by name inside
`DataService.optimize_threshold`; unknown names fall back to profit. -/
def objectiveValue (objective : String) (m : Metrics) : ℚ :=
  if objective = "profit" then m.saldoLiquido
  else if objective = "risk" then -m.taxaInadimplencia
  else if objective = "balanced" then m.taxaAprovacao - m.taxaInadimplencia * 10
  else m.saldoLiquido

/-- The comparison `value > best_value` of the optimizer scan, where
`none` stands for the initial `float("-inf")`. -/
def valBetter (x : ℚ) : Option ℚ → Bool
  | none => true
  | some b => decide (b < x)

/-- One iteration of the incumbent update of the optimizer: replace the
incumbent `(best_threshold, best_value)` only on strict improvement. -/
def scanStep (f : ℚ → ℚ) (acc : ℚ × Option ℚ) (t : ℚ) : ℚ × Option ℚ :=
  if valBetter (f t) acc.2 then (t, some (f t)) else acc

/-- The scan of the optimizer over the grid, starting from the incumbent
`best_threshold = 0.5`, `best_value = -inf`. -/
def bestScan (f : ℚ → ℚ) (l : List ℚ) : ℚ × Option ℚ :=
  l.foldl (scanStep f) (0.5, none)

/-- One entry of the `results` table of the optimizer. -/
structure GridPoint where
  threshold : ℚ
  value : ℚ
  metrics : Metrics
  deriving Repr, DecidableEq

/-- The dictionary returned by `DataService.optimize_threshold`.  In the
data-unavailable branch the source returns only the first two keys; the
remaining three are modelled as `Option` fields that are `none` there. -/
structure OptimizeResult where
  optimal_threshold : ℚ
  objective : String
  best_value : Option ℚ
  metrics : Option Metrics
  all_results : Option (List GridPoint)
  deriving Repr, DecidableEq

/-- `DataService.optimize_threshold`.  When the population table failed
to load it returns only `optimal_threshold = 0.5` and the objective
name; otherwise it scans `linGrid` in ascending order with strict-`>`
incumbent updates and reports the per-point table. -/
def optimize_threshold (objective : String) (state : Option (List Record)) :
    OptimizeResult :=
  match state with
  | none =>
    { optimal_threshold := 0.5, objective := objective
      best_value := none, metrics := none, all_results := none }
  | some pop =>
    let f := fun t => objectiveValue objective (get_metrics t (some pop))
    let best := bestScan f linGrid
    let results := linGrid.map (fun t =>
      ({ threshold := pyRound t 2, value := f t,
         metrics := get_metrics t (some pop) } : GridPoint))
    { optimal_threshold := pyRound best.1 2
      objective := objective
      best_value := best.2
      metrics := some (get_metrics best.1 (some pop))
      all_results := some results }

/-- The record returned by `classify_risk_bacen` in
`src/scripts/classify_risk_BACEN.py`. -/
structure RiskClass where
  nivel_bacen : String
  classificacao : String
  decisao : String
  provisao : ℚ
  cor : String
  descricao : String
  deriving Repr, DecidableEq

/-- `classify_risk_bacen`: nine-tier BACEN 2682/1999 classification of a
default probability, branching on `prob_percent = probability * 100`
with inclusive upper bounds. -/
def classify_risk_bacen (probability : ℚ) : RiskClass :=
  if probability * 100 ≤ 0.5 then
    ⟨"AA", "Risco Mínimo", "Aprovar", 0, "verde", "Excelente perfil de crédito"⟩
  else if probability * 100 ≤ 1.0 then
    ⟨"A", "Risco Baixo", "Aprovar", 0.5, "verde", "Ótimo perfil de crédito"⟩
  else if probability * 100 ≤ 3.0 then
    ⟨"B", "Risco Moderado", "Aprovar", 1.0, "verde", "Bom perfil de crédito"⟩
  else if probability * 100 ≤ 10.0 then
    ⟨"C", "Risco Médio", "Revisar", 3.0, "amarelo", "Análise criteriosa necessária"⟩
  else if probability * 100 ≤ 30.0 then
    ⟨"D", "Risco Alto", "Revisar com Restrições", 10.0, "laranja", "Exigir garantias adicionais"⟩
  else if probability * 100 ≤ 50.0 then
    ⟨"E", "Risco Elevado", "Negar", 30.0, "vermelho", "Risco inaceitável"⟩
  else if probability * 100 ≤ 70.0 then
    ⟨"F", "Risco Muito Elevado", "Negar", 50.0, "vermelho", "Risco crítico"⟩
  else if probability * 100 ≤ 100.0 then
    ⟨"G", "Risco Crítico", "Negar", 70.0, "vermelho", "Inadimplência provável"⟩
  else
    ⟨"H", "Perda", "Negar", 100.0, "vermelho", "Inadimplência confirmada"⟩

/-- `ModelService._get_recommendation`: the 3-tier decision of the live
scoring endpoint. -/
def _get_recommendation (probability : ℚ) : String :=
  if probability ≤ 0.10 then "Aprovar"
  else if probability ≤ 0.30 then "Revisar"
  else "Negar"

/-! ### Helper lemmas about rounding -/

lemma pyRoundInt_lb (q : ℚ) : ⌊q⌋ ≤ pyRoundInt q := by
  unfold pyRoundInt
  split_ifs <;> omega

lemma pyRoundInt_ub (q : ℚ) : pyRoundInt q ≤ ⌊q⌋ + 1 := by
  unfold pyRoundInt
  split_ifs <;> omega

lemma pyRoundInt_mono {q r : ℚ} (h : q ≤ r) : pyRoundInt q ≤ pyRoundInt r := by
  rcases lt_or_eq_of_le (Int.floor_mono h) with hf | hf
  · calc pyRoundInt q ≤ ⌊q⌋ + 1 := pyRoundInt_ub q
      _ ≤ ⌊r⌋ := by omega
      _ ≤ pyRoundInt r := pyRoundInt_lb r
  · unfold pyRoundInt
    rw [← hf]
    have hqr : q - ⌊q⌋ ≤ r - ⌊q⌋ := by linarith
    split_ifs <;> first | omega | linarith

lemma pyRound_mono {q r : ℚ} (d : ℕ) (h : q ≤ r) : pyRound q d ≤ pyRound r d := by
  unfold pyRound
  have hd : (0 : ℚ) < 10 ^ d := by positivity
  have h1 : q * 10 ^ d ≤ r * 10 ^ d := by
    exact mul_le_mul_of_nonneg_right h (le_of_lt hd)
  have h3 : (pyRoundInt (q * 10 ^ d) : ℚ) ≤ (pyRoundInt (r * 10 ^ d) : ℚ) := by
    exact_mod_cast pyRoundInt_mono h1
  gcongr

lemma lt_decide_not_le (x y : ℚ) : decide (x < y) = !decide (y ≤ x) := by
  rcases le_or_lt y x with h | h
  · simp [h, not_lt.mpr h]
  · simp [h, not_le.mpr h]

/-! ### Claim theorems -/

/-- C1: on the 4-record example population with normalized scores
`[0.2, 0.5, 0.7, 0.9]`, outcomes `[True, False, False, True]` and
exposures `[100, 200, 300, 400]`, `get_metrics` at threshold `0.5`
approves exactly the records with score at least `0.5` (indices 1, 2, 3)
and returns `approved_count = 3`, `rejected_count = 1`, default rate
among approved `33.3` (that is, rounded `1/3`), revenue `900`, default
losses `400`, net balance `500`, missed opportunity `0` and avoided
losses `100`. -/
theorem round_trip_example_metrics :
    examplePop.filter (fun r => decide ((0.5 : ℚ) ≤ r.score_normalizado)) =
      [⟨0.5, 0, 200⟩, ⟨0.7, 0, 300⟩, ⟨0.9, 1, 400⟩] ∧
    (get_metrics 0.5 (some examplePop)).clientesAprovados = 3 ∧
    (get_metrics 0.5 (some examplePop)).clientesRejeitados = 1 ∧
    (get_metrics 0.5 (some examplePop)).taxaInadimplencia = 33.3 ∧
    (get_metrics 0.5 (some examplePop)).receitaTotal = 900 ∧
    (get_metrics 0.5 (some examplePop)).perdasInadimplencia = 400 ∧
    (get_metrics 0.5 (some examplePop)).saldoLiquido = 500 ∧
    (get_metrics 0.5 (some examplePop)).oportunidadesPerdidas = 0 ∧
    (get_metrics 0.5 (some examplePop)).perdasEvitadas = 100 := by
  norm_num [get_metrics, examplePop, sumTicket, sumInad, List.filter, pyRound, pyRoundInt,
    Int.floor_eq_iff]

/-- C5: for every threshold, when the population table failed to load
(`none`) or is empty, `get_metrics` returns the explicit empty snapshot,
whose aggregate outputs (counts, rates, revenue, losses, missed
opportunity, avoided losses, average exposure) are all exactly `0`. -/
theorem empty_population_metrics (t : ℚ) :
    get_metrics t none = _get_empty_metrics ∧
    get_metrics t (some ([] : List Record)) = _get_empty_metrics ∧
    _get_empty_metrics.totalClientes = 0 ∧
    _get_empty_metrics.clientesAprovados = 0 ∧
    _get_empty_metrics.clientesRejeitados = 0 ∧
    _get_empty_metrics.taxaAprovacao = 0 ∧
    _get_empty_metrics.taxaInadimplencia = 0 ∧
    _get_empty_metrics.receitaTotal = 0 ∧
    _get_empty_metrics.perdasInadimplencia = 0 ∧
    _get_empty_metrics.saldoLiquido = 0 ∧
    _get_empty_metrics.oportunidadesPerdidas = 0 ∧
    _get_empty_metrics.perdasEvitadas = 0 ∧
    _get_empty_metrics.valorMedio = 0 := by
  refine ⟨rfl, by simp [get_metrics], rfl, rfl, rfl, rfl, rfl, rfl, rfl, rfl, rfl, rfl, rfl⟩

/-- C7: for every threshold, the rejected set of the ROC sweep
(`score_normalizado < t`) is exactly the complement of the approval set
(`score_normalizado >= t`), and the per-threshold `tp` and `fp` counts
of the loop in `get_roc_curve_data` equal the `tp` and `fp` cells of
`get_confusion_matrix` at the same threshold. -/
theorem roc_confusion_consistency (t : ℚ) (pop : List Record) :
    rocRejected t pop =
      pop.filter (fun r => !decide (t ≤ r.score_normalizado)) ∧
    roc_tp t pop = (get_confusion_matrix t pop).tp ∧
    roc_fp t pop = (get_confusion_matrix t pop).fp := by
  refine ⟨?_, ?_, ?_⟩
  · exact List.filter_congr (fun r _ => by rw [lt_decide_not_le])
  · show pop.countP (fun r =>
        decide (r.score_normalizado < t) && decide (r.inadimplente = 1)) =
      pop.countP (fun r =>
        !decide (t ≤ r.score_normalizado) && decide (r.inadimplente = 1))
    exact List.countP_congr (fun r _ => by rw [lt_decide_not_le])
  · show pop.countP (fun r =>
        decide (r.score_normalizado < t) && decide (r.inadimplente = 0)) =
      pop.countP (fun r =>
        !decide (t ≤ r.score_normalizado) && decide (r.inadimplente = 0))
    exact List.countP_congr (fun r _ => by rw [lt_decide_not_le])

lemma countP_partition (t : ℚ) (pop : List Record)
    (h : ∀ r ∈ pop, r.inadimplente = 0 ∨ r.inadimplente = 1) :
    pop.countP (fun r =>
        !decide (t ≤ r.score_normalizado) && decide (r.inadimplente = 1))
      + pop.countP (fun r =>
        !decide (t ≤ r.score_normalizado) && decide (r.inadimplente = 0))
      + pop.countP (fun r =>
        decide (t ≤ r.score_normalizado) && decide (r.inadimplente = 0))
      + pop.countP (fun r =>
        decide (t ≤ r.score_normalizado) && decide (r.inadimplente = 1))
      = pop.length := by
  induction pop with
  | nil => simp
  | cons r l ih =>
    have hr := h r (List.mem_cons_self r l)
    have hl : ∀ x ∈ l, x.inadimplente = 0 ∨ x.inadimplente = 1 :=
      fun x hx => h x (List.mem_cons_of_mem r hx)
    have ihl := ih hl
    simp only [List.countP_cons, List.length_cons]
    rcases hr with h0 | h1
    · by_cases ha : t ≤ r.score_normalizado <;> simp [h0, ha] <;> omega
    · by_cases ha : t ≤ r.score_normalizado <;> simp [h1, ha] <;> omega

/-- C3: for every threshold and loaded population whose outcome column
only holds the values 0 and 1, `get_metrics` satisfies
`approved_count + rejected_count = total` and `get_confusion_matrix`
satisfies `tp + fp + tn + fn = total`. -/
theorem partition_completeness (t : ℚ) (pop : List Record)
    (h : ∀ r ∈ pop, r.inadimplente = 0 ∨ r.inadimplente = 1) :
    (get_metrics t (some pop)).clientesAprovados
        + (get_metrics t (some pop)).clientesRejeitados = pop.length ∧
      (get_confusion_matrix t pop).tp + (get_confusion_matrix t pop).fp
        + (get_confusion_matrix t pop).tn + (get_confusion_matrix t pop).fn
        = pop.length := by
  constructor
  · have h1 : (get_metrics t (some pop)).clientesAprovados =
        (pop.filter (fun r => decide (t ≤ r.score_normalizado))).length ∧
        (get_metrics t (some pop)).clientesRejeitados =
        pop.length - (pop.filter (fun r => decide (t ≤ r.score_normalizado))).length := by
      by_cases h0 : pop.length = 0
      · obtain rfl : pop = [] := List.length_eq_zero.mp h0
        exact ⟨rfl, rfl⟩
      · simp [get_metrics, h0]
    have h2 := List.length_filter_le (fun r => decide (t ≤ r.score_normalizado)) pop
    omega
  · show pop.countP _ + pop.countP _ + pop.countP _ + pop.countP _ = pop.length
    exact countP_partition t pop h

/-- Witness for C3 at the 4-record example population and threshold
`0.5`. -/
theorem partition_completeness_witness :
    (get_metrics 0.5 (some examplePop)).clientesAprovados
        + (get_metrics 0.5 (some examplePop)).clientesRejeitados = examplePop.length ∧
      (get_confusion_matrix 0.5 examplePop).tp + (get_confusion_matrix 0.5 examplePop).fp
        + (get_confusion_matrix 0.5 examplePop).tn + (get_confusion_matrix 0.5 examplePop).fn
        = examplePop.length :=
  partition_completeness 0.5 examplePop (by decide)

/-- A 2-record population on which the default rate among approved
records increases with the threshold: the only high-score record is a
defaulter. -/
def monoCexPop : List Record := [⟨0.2, 0, 100⟩, ⟨0.9, 1, 100⟩]

/-- Counterexample for C2: on `monoCexPop`, raising the threshold from
`0` to `0.5` raises `default_rate_among_approved` from `50` to `100`, so
the rate returned by `get_metrics` is not non-increasing in the
threshold. -/
theorem default_rate_not_antitone_cex :
    (0 : ℚ) ≤ 0.5 ∧
      (get_metrics 0 (some monoCexPop)).taxaInadimplencia = 50 ∧
      (get_metrics 0.5 (some monoCexPop)).taxaInadimplencia = 100 ∧
      ¬ ((get_metrics 0.5 (some monoCexPop)).taxaInadimplencia ≤
        (get_metrics 0 (some monoCexPop)).taxaInadimplencia) := by
  norm_num [get_metrics, monoCexPop, sumInad, sumTicket, List.filter, pyRound, pyRoundInt,
    Int.floor_eq_iff]

/-- C2 (amended): for every fixed loaded population, the approval rate
returned by `get_metrics` is non-increasing as the threshold increases;
the analogous statement for the default rate among approved records is
refuted by `default_rate_not_antitone_cex`. -/
theorem approval_rate_antitone (pop : List Record) {t₁ t₂ : ℚ} (h : t₁ ≤ t₂) :
    (get_metrics t₂ (some pop)).taxaAprovacao ≤
      (get_metrics t₁ (some pop)).taxaAprovacao := by
  by_cases h0 : pop.length = 0
  · obtain rfl : pop = [] := List.length_eq_zero.mp h0
    exact le_refl _
  · have hA : ∀ t : ℚ, (get_metrics t (some pop)).taxaAprovacao =
        pyRound (((pop.filter (fun r => decide (t ≤ r.score_normalizado))).length : ℚ)
          / (pop.length : ℚ) * 100) 1 := by
      intro t
      simp [get_metrics, h0, Nat.pos_of_ne_zero h0]
    rw [hA t₁, hA t₂]
    apply pyRound_mono
    have hc : (pop.filter (fun r => decide (t₂ ≤ r.score_normalizado))).length ≤
        (pop.filter (fun r => decide (t₁ ≤ r.score_normalizado))).length := by
      rw [← List.countP_eq_length_filter, ← List.countP_eq_length_filter]
      refine List.countP_mono_left (fun r _ hr => ?_)
      simp only [decide_eq_true_eq] at hr ⊢
      linarith
    have hlen : (0 : ℚ) < (pop.length : ℚ) := by
      exact_mod_cast Nat.pos_of_ne_zero h0
    have hcq : ((pop.filter (fun r => decide (t₂ ≤ r.score_normalizado))).length : ℚ) ≤
        ((pop.filter (fun r => decide (t₁ ≤ r.score_normalizado))).length : ℚ) := by
      exact_mod_cast hc
    gcongr

/-- Witness for the amended C2 at the example population with
thresholds `0` and `0.5`. -/
theorem approval_rate_antitone_witness :
    (0 : ℚ) ≤ 0.5 ∧
      (get_metrics 0.5 (some examplePop)).taxaAprovacao ≤
        (get_metrics 0 (some examplePop)).taxaAprovacao :=
  ⟨by norm_num, approval_rate_antitone examplePop (by norm_num)⟩

lemma scan_aux (f : ℚ → ℚ) : ∀ (l : List ℚ), l.Sorted (· < ·) → ∀ b0 : ℚ,
    (∀ u ∈ l, b0 < u) →
    ∃ t, (t = b0 ∨ t ∈ l) ∧
      l.foldl (scanStep f) (b0, some (f b0)) = (t, some (f t)) ∧
      (∀ u ∈ l, f u ≤ f t) ∧ f b0 ≤ f t ∧
      (f t = f b0 → t = b0) ∧
      (∀ u ∈ l, f u = f t → t ≤ u) := by
  intro l
  induction l with
  | nil =>
    intro _ b0 _
    exact ⟨b0, Or.inl rfl, rfl, by simp, le_refl _, fun _ => rfl, by simp⟩
  | cons x xs ih =>
    intro hs b0 hb
    rw [List.sorted_cons] at hs
    obtain ⟨hx, hxs⟩ := hs
    have hbx : b0 < x := hb x (List.mem_cons_self x xs)
    by_cases hlt : f b0 < f x
    · have hstep : List.foldl (scanStep f) (b0, some (f b0)) (x :: xs) =
          List.foldl (scanStep f) (x, some (f x)) xs := by
        simp [List.foldl_cons, scanStep, valBetter, hlt]
      obtain ⟨t, htm, hres, hmax, hble, htie0, htie⟩ := ih hxs x hx
      refine ⟨t, ?_, by rw [hstep]; exact hres, ?_, ?_, ?_, ?_⟩
      · rcases htm with rfl | htm
        · exact Or.inr (List.mem_cons_self t xs)
        · exact Or.inr (List.mem_cons_of_mem x htm)
      · intro u hu
        rcases List.mem_cons.mp hu with rfl | hu
        · exact hble
        · exact hmax u hu
      · exact le_of_lt (lt_of_lt_of_le hlt hble)
      · intro he
        exfalso
        have := lt_of_lt_of_le hlt hble
        rw [he] at this
        exact lt_irrefl _ this
      · intro u hu hfe
        rcases List.mem_cons.mp hu with rfl | hu
        · rw [htie0 hfe.symm]
        · exact htie u hu hfe
    · push_neg at hlt
      have hstep : List.foldl (scanStep f) (b0, some (f b0)) (x :: xs) =
          List.foldl (scanStep f) (b0, some (f b0)) xs := by
        simp [List.foldl_cons, scanStep, valBetter, not_lt.mpr hlt]
      have hb' : ∀ u ∈ xs, b0 < u := fun u hu => hb u (List.mem_cons_of_mem x hu)
      obtain ⟨t, htm, hres, hmax, hble, htie0, htie⟩ := ih hxs b0 hb'
      refine ⟨t, ?_, by rw [hstep]; exact hres, ?_, hble, htie0, ?_⟩
      · rcases htm with rfl | htm
        · exact Or.inl rfl
        · exact Or.inr (List.mem_cons_of_mem x htm)
      · intro u hu
        rcases List.mem_cons.mp hu with rfl | hu
        · exact le_trans hlt hble
        · exact hmax u hu
      · intro u hu hfe
        rcases List.mem_cons.mp hu with rfl | hu
        · have hbt : f t = f b0 := le_antisymm (hfe ▸ hlt) hble
          rw [htie0 hbt]
          exact le_of_lt hbx
        · exact htie u hu hfe

lemma linGrid_sorted_tail :
    ([0.2, 0.3, 0.4, 0.5, 0.6, 0.7, 0.8, 0.9] : List ℚ).Sorted (· < ·) := by
  norm_num [List.sorted_cons]

/-- The optimizer scan over the 9-point grid lands on the first grid
threshold achieving the maximal objective value over the grid. -/
lemma bestScan_argmax (f : ℚ → ℚ) :
    ∃ t ∈ linGrid, bestScan f linGrid = (t, some (f t)) ∧
      (∀ u ∈ linGrid, f u ≤ f t) ∧ (∀ u ∈ linGrid, f u = f t → t ≤ u) := by
  have hstep : bestScan f linGrid =
      List.foldl (scanStep f)
        ((0.1 : ℚ), some (f 0.1)) [0.2, 0.3, 0.4, 0.5, 0.6, 0.7, 0.8, 0.9] := by
    simp [bestScan, linGrid, List.foldl_cons, scanStep, valBetter]
  have hlt : ∀ u ∈ ([0.2, 0.3, 0.4, 0.5, 0.6, 0.7, 0.8, 0.9] : List ℚ), (0.1 : ℚ) < u := by
    intro u hu
    simp only [List.mem_cons, List.not_mem_nil, or_false] at hu
    rcases hu with rfl | rfl | rfl | rfl | rfl | rfl | rfl | rfl <;> norm_num
  obtain ⟨t, htm, hres, hmax, hble, htie0, htie⟩ :=
    scan_aux f [0.2, 0.3, 0.4, 0.5, 0.6, 0.7, 0.8, 0.9] linGrid_sorted_tail 0.1 hlt
  have htg : t ∈ linGrid := by
    rcases htm with rfl | htm
    · exact List.mem_cons_self _ _
    · exact List.mem_cons_of_mem _ htm
  refine ⟨t, htg, by rw [hstep]; exact hres, ?_, ?_⟩
  · intro u hu
    rcases List.mem_cons.mp hu with rfl | hu
    · exact hble
    · exact hmax u hu
  · intro u hu hfe
    rcases List.mem_cons.mp hu with rfl | hu
    · rw [htie0 hfe.symm]
    · exact htie u hu hfe

/-- C4: for every objective and every loaded population, the scan of
`optimize_threshold` over its ascending 9-point grid with strict-`>`
incumbent updates returns the lowest grid threshold achieving the
maximal objective value. -/
theorem optimizer_first_argmax (objective : String) (pop : List Record) :
    ∃ t ∈ linGrid,
      (optimize_threshold objective (some pop)).optimal_threshold = pyRound t 2 ∧
      (∀ u ∈ linGrid,
        objectiveValue objective (get_metrics u (some pop)) ≤
          objectiveValue objective (get_metrics t (some pop))) ∧
      (∀ u ∈ linGrid,
        objectiveValue objective (get_metrics u (some pop)) =
          objectiveValue objective (get_metrics t (some pop)) → t ≤ u) := by
  obtain ⟨t, htm, hres, hmax, htie⟩ :=
    bestScan_argmax (fun u => objectiveValue objective (get_metrics u (some pop)))
  refine ⟨t, htm, ?_, hmax, htie⟩
  show pyRound (bestScan
    (fun u => objectiveValue objective (get_metrics u (some pop))) linGrid).1 2 = pyRound t 2
  rw [hres]

/-- Counterexample for C6: when the population table failed to load,
`optimize_threshold` returns only the optimal threshold `0.5` and the
objective name; the best value, metrics snapshot and per-grid-point
table are absent. -/
theorem optimize_unavailable_fields_cex :
    (optimize_threshold "profit" none).best_value = none ∧
      (optimize_threshold "profit" none).metrics = none ∧
      (optimize_threshold "profit" none).all_results = none ∧
      (optimize_threshold "profit" none).optimal_threshold = 0.5 ∧
      (optimize_threshold "profit" none).objective = "profit" :=
  ⟨rfl, rfl, rfl, rfl, rfl⟩

/-- C6 (amended): for every objective, when the population table loaded
successfully `optimize_threshold` returns all five fields — the optimal
threshold rounded to 2 decimals, the objective name, the best objective
value, the metrics snapshot at the optimal threshold, and the complete
per-grid-point table; when the table failed to load, it returns only
`optimal_threshold = 0.5` and the objective name. -/
theorem optimize_fields_loaded (objective : String) (pop : List Record) :
    (∃ t ∈ linGrid,
      optimize_threshold objective (some pop) =
        { optimal_threshold := pyRound t 2
          objective := objective
          best_value := some (objectiveValue objective (get_metrics t (some pop)))
          metrics := some (get_metrics t (some pop))
          all_results := some (linGrid.map (fun u =>
            ({ threshold := pyRound u 2
               value := objectiveValue objective (get_metrics u (some pop))
               metrics := get_metrics u (some pop) } : GridPoint))) }) ∧
      optimize_threshold objective none =
        { optimal_threshold := 0.5, objective := objective,
          best_value := none, metrics := none, all_results := none } := by
  refine ⟨?_, rfl⟩
  obtain ⟨t, htm, hres, _, _⟩ :=
    bestScan_argmax (fun u => objectiveValue objective (get_metrics u (some pop)))
  refine ⟨t, htm, ?_⟩
  show ({ optimal_threshold := pyRound (bestScan
            (fun u => objectiveValue objective (get_metrics u (some pop))) linGrid).1 2
          objective := objective
          best_value := (bestScan
            (fun u => objectiveValue objective (get_metrics u (some pop))) linGrid).2
          metrics := some (get_metrics (bestScan
            (fun u => objectiveValue objective (get_metrics u (some pop))) linGrid).1 (some pop))
          all_results := some (linGrid.map (fun u =>
            ({ threshold := pyRound u 2
               value := objectiveValue objective (get_metrics u (some pop))
               metrics := get_metrics u (some pop) } : GridPoint))) } : OptimizeResult) = _
  rw [hres]

/-- C8: for every probability in `[0, 1]`, the nine-tier classification
assigns the first band whose inclusive upper bound (as probability
fraction `0.005, 0.01, 0.03, 0.1, 0.3, 0.5, 0.7, 1`) is at least the
probability, with tiers `AA, A, B, C, D, E, F, G` carrying provisioning
percentages `0, 0.5, 1, 3, 10, 30, 50, 70` respectively. -/
theorem bacen_band_assignment (p : ℚ) (_h0 : 0 ≤ p) (h1 : p ≤ 1) :
    ((classify_risk_bacen p).nivel_bacen, (classify_risk_bacen p).provisao) =
      (if p ≤ 0.005 then ("AA", (0 : ℚ))
       else if p ≤ 0.01 then ("A", 0.5)
       else if p ≤ 0.03 then ("B", 1)
       else if p ≤ 0.1 then ("C", 3)
       else if p ≤ 0.3 then ("D", 10)
       else if p ≤ 0.5 then ("E", 30)
       else if p ≤ 0.7 then ("F", 50)
       else ("G", 70)) := by
  have e1 : p * 100 ≤ (0.5 : ℚ) ↔ p ≤ 0.005 := by constructor <;> intro h <;> linarith
  have e2 : p * 100 ≤ (1.0 : ℚ) ↔ p ≤ 0.01 := by constructor <;> intro h <;> linarith
  have e3 : p * 100 ≤ (3.0 : ℚ) ↔ p ≤ 0.03 := by constructor <;> intro h <;> linarith
  have e4 : p * 100 ≤ (10.0 : ℚ) ↔ p ≤ 0.1 := by constructor <;> intro h <;> linarith
  have e5 : p * 100 ≤ (30.0 : ℚ) ↔ p ≤ 0.3 := by constructor <;> intro h <;> linarith
  have e6 : p * 100 ≤ (50.0 : ℚ) ↔ p ≤ 0.5 := by constructor <;> intro h <;> linarith
  have e7 : p * 100 ≤ (70.0 : ℚ) ↔ p ≤ 0.7 := by constructor <;> intro h <;> linarith
  have e8 : p * 100 ≤ (100.0 : ℚ) ↔ True := iff_true_intro (by linarith)
  unfold classify_risk_bacen
  simp only [e1, e2, e3, e4, e5, e6, e7, e8, if_true]
  split_ifs <;> norm_num [Prod.ext_iff]

/-- Witness for C8: a probability of exactly `0.5%` falls in tier `AA`,
not `A`, with provision `0`. -/
theorem bacen_band_assignment_witness :
    (0 : ℚ) ≤ 0.005 ∧ (0.005 : ℚ) ≤ 1 ∧
      ((classify_risk_bacen 0.005).nivel_bacen, (classify_risk_bacen 0.005).provisao) =
        ("AA", (0 : ℚ)) := by
  refine ⟨by norm_num, by norm_num, ?_⟩
  have h := bacen_band_assignment 0.005 (by norm_num) (by norm_num)
  norm_num [Prod.ext_iff] at h ⊢
  exact h

/-- C9: for every probability in `[0, 1]`, the 3-tier recommendation is
`"Aprovar"` exactly when the nine-tier classification lands in the
ten-percent band `{AA, A, B, C}`; in particular `"Negar"` never
co-occurs with tier `AA`. -/
theorem three_tier_nine_tier_agree (p : ℚ) (_h0 : 0 ≤ p) (h1 : p ≤ 1) :
    (_get_recommendation p = "Aprovar" ↔
      (classify_risk_bacen p).nivel_bacen ∈ (["AA", "A", "B", "C"] : List String)) ∧
    (_get_recommendation p = "Negar" → (classify_risk_bacen p).nivel_bacen ≠ "AA") := by
  have e1 : p * 100 ≤ (0.5 : ℚ) ↔ p ≤ 0.005 := by constructor <;> intro h <;> linarith
  have e2 : p * 100 ≤ (1.0 : ℚ) ↔ p ≤ 0.01 := by constructor <;> intro h <;> linarith
  have e3 : p * 100 ≤ (3.0 : ℚ) ↔ p ≤ 0.03 := by constructor <;> intro h <;> linarith
  have e4 : p * 100 ≤ (10.0 : ℚ) ↔ p ≤ 0.10 := by constructor <;> intro h <;> linarith
  have e5 : p * 100 ≤ (30.0 : ℚ) ↔ p ≤ 0.30 := by constructor <;> intro h <;> linarith
  have e6 : p * 100 ≤ (50.0 : ℚ) ↔ p ≤ 0.5 := by constructor <;> intro h <;> linarith
  have e7 : p * 100 ≤ (70.0 : ℚ) ↔ p ≤ 0.7 := by constructor <;> intro h <;> linarith
  have e8 : p * 100 ≤ (100.0 : ℚ) ↔ True := iff_true_intro (by linarith)
  unfold _get_recommendation classify_risk_bacen
  simp only [e1, e2, e3, e4, e5, e6, e7, e8, if_true]
  split_ifs <;> first | (exfalso; linarith) | decide

/-- Witness for C9: probability `0.05` gives decision `"Aprovar"` and a
tier in the band `{AA, A, B, C}`. -/
theorem three_tier_nine_tier_agree_witness :
    (0 : ℚ) ≤ 0.05 ∧ (0.05 : ℚ) ≤ 1 ∧
      ((_get_recommendation 0.05 = "Aprovar" ↔
        (classify_risk_bacen 0.05).nivel_bacen ∈ (["AA", "A", "B", "C"] : List String)) ∧
      (_get_recommendation 0.05 = "Negar" →
        (classify_risk_bacen 0.05).nivel_bacen ≠ "AA")) :=
  ⟨by norm_num, by norm_num, three_tier_nine_tier_agree 0.05 (by norm_num) (by norm_num)⟩

/-- C10: for every probability in `[0, 1]`, `classify_risk_bacen`
returns a tier among `AA, A, B, C, D, E, F, G`; the `H` branch requires
`probability * 100 > 100` and is unreachable under the documented input
precondition. -/
theorem bacen_no_tier_H (p : ℚ) (_h0 : 0 ≤ p) (h1 : p ≤ 1) :
    (classify_risk_bacen p).nivel_bacen ∈
      (["AA", "A", "B", "C", "D", "E", "F", "G"] : List String) ∧
    (classify_risk_bacen p).nivel_bacen ≠ "H" := by
  have e8 : p * 100 ≤ (100.0 : ℚ) ↔ True := iff_true_intro (by linarith)
  unfold classify_risk_bacen
  simp only [e8, if_true]
  split_ifs <;> decide

/-- Witness for C10 at probability `0.4`. -/
theorem bacen_no_tier_H_witness :
    (0 : ℚ) ≤ 0.4 ∧ (0.4 : ℚ) ≤ 1 ∧
      ((classify_risk_bacen 0.4).nivel_bacen ∈
        (["AA", "A", "B", "C", "D", "E", "F", "G"] : List String) ∧
      (classify_risk_bacen 0.4).nivel_bacen ≠ "H") :=
  ⟨by norm_num, by norm_num, bacen_no_tier_H 0.4 (by norm_num) (by norm_num)⟩

end CreditRisk
